import Mathlib

/-
Verification of the Argus-Vision interactive annotation / task-lifecycle core.

The definitions below are a shallow embedding of the TypeScript sources:
  * types.ts                    (enums and entity interfaces)
  * components/TaskDrawer.tsx   (sample curation, dual-threshold training gate)
  * components/TaskWizard.tsx   (drawing engine, renderer, AI parse, validation)
  * services/geminiService.ts   (rule-parsing collaborator with fallback)
  * App.tsx                     (task list, lifecycle callbacks, delete)

JS numbers are modelled as Rat where fractional values occur (coordinates,
confidence, durations) and as Nat where the program only ever produces
non-negative integers (sample counts, thresholds).
-/

namespace ArgusVision

/-- types.ts: enum TaskStatus. -/
inductive TaskStatus where
  | INIT
  | RUNNING
  | STOPPED
  | TRAINING
  | ERROR
deriving DecidableEq, Repr

/-- types.ts: enum LabelStatus. -/
inductive LabelStatus where
  | UNLABELED
  | POSITIVE
  | NEGATIVE
  | IGNORED
deriving DecidableEq, Repr

/-- types.ts: enum AlarmLevel. -/
inductive AlarmLevel where
  | HIGH
  | MEDIUM
  | LOW
deriving DecidableEq, Repr

/-- types.ts: interface Coordinate, normalized canvas coordinates. -/
structure Coordinate where
  x : ℚ
  y : ℚ
deriving DecidableEq, Repr

/-- types.ts: interface Algorithm. -/
structure Algorithm where
  id : String
  name : String
  description : String
  version : String
  icon : String
  type : String
deriving DecidableEq, Repr

/-- Sample-count record as actually constructed at runtime (mock tasks in
App.tsx and TaskWizard.handleFinish): total, labeled, and the two
independent thresholds read by TaskDrawer. -/
structure SampleCount where
  total : Nat
  labeled : Nat
  positive_threshold : Nat
  negative_threshold : Nat
deriving DecidableEq, Repr

/-- types.ts: interface Task. -/
structure Task where
  id : String
  name : String
  camera_ids : List String
  roi : List Coordinate
  algorithm : Algorithm
  nlp_text : Option String
  duration : ℚ
  alarm_level : AlarmLevel
  status : TaskStatus
  sample_count : SampleCount
  created_at : String
deriving DecidableEq, Repr

/-- types.ts: interface SampleImage. -/
structure SampleImage where
  id : String
  url : String
  confidence : ℚ
  label : LabelStatus
  timestamp : String
deriving DecidableEq, Repr

/-- TaskDrawer.tsx generateMockSamples: ids sample_0 .. sample_(n-1), all
UNLABELED.  Math.random and new Date are external inputs, passed in as the
conf and timestamp parameters. -/
def generateMockSamples (conf : Nat → ℚ) (timestamp : String) (count : Nat) :
    List SampleImage :=
  (List.range count).map (fun i =>
    { id := (("sample_") ++ toString i)
      url := (("https://picsum.photos/300/200?random=") ++ toString i)
      confidence := conf i
      label := LabelStatus.UNLABELED
      timestamp := timestamp })

/-- TaskDrawer.tsx stats.positive: count by scanning current labels. -/
def statsPositive (samples : List SampleImage) : Nat :=
  (samples.filter (fun s => decide (s.label = LabelStatus.POSITIVE))).length

/-- TaskDrawer.tsx stats.negative: count by scanning current labels. -/
def statsNegative (samples : List SampleImage) : Nat :=
  (samples.filter (fun s => decide (s.label = LabelStatus.NEGATIVE))).length

/-- TaskDrawer.tsx stats.unlabeled. -/
def statsUnlabeled (samples : List SampleImage) : Nat :=
  (samples.filter (fun s => decide (s.label = LabelStatus.UNLABELED))).length

/-- TaskDrawer.tsx canTrain with explicit thresholds:
stats.positive >= positiveThreshold && stats.negative >= negativeThreshold. -/
def canTrain (positiveThreshold negativeThreshold : Nat)
    (samples : List SampleImage) : Bool :=
  decide (positiveThreshold ≤ statsPositive samples) &&
    decide (negativeThreshold ≤ statsNegative samples)

/-- TaskDrawer.tsx canTrain reading the thresholds off the task record. -/
def canTrainFor (task : Task) (samples : List SampleImage) : Bool :=
  canTrain task.sample_count.positive_threshold
    task.sample_count.negative_threshold samples

/-- TaskDrawer.tsx handleLabel: reassign the label of the matching sample. -/
def handleLabel (id : String) (label : LabelStatus)
    (samples : List SampleImage) : List SampleImage :=
  samples.map (fun s => if s.id = id then { s with label := label } else s)

/-! ## Annotation canvas engine (TaskWizard.tsx) -/

/-- TaskWizard.tsx: type DrawMode = 'line' | 'curve' | 'polygon' | 'arrow'. -/
inductive DrawMode where
  | line
  | curve
  | polygon
  | arrow
deriving DecidableEq, Repr

/-- TaskWizard.tsx: interface DrawElement. -/
structure DrawElement where
  id : String
  type : DrawMode
  points : List Coordinate
deriving DecidableEq, Repr

/-- Drawing-related slice of the wizard state: isDrawing, currentDrawing
(the pending stroke) and drawElements (committed primitives). -/
structure DrawState where
  isDrawing : Bool
  currentDrawing : List Coordinate
  drawElements : List DrawElement
deriving DecidableEq, Repr

/-- TaskWizard.tsx getBoundingClientRect result used by getCanvasCoords. -/
structure ClientRect where
  left : ℚ
  top : ℚ
  width : ℚ
  height : ℚ
deriving DecidableEq, Repr

/-- TaskWizard.tsx getCanvasCoords: returns none when canvasRef.current is
null, otherwise ((clientX-left)/width, (clientY-top)/height).  The source
performs no clamping. -/
def getCanvasCoords (canvas : Option ClientRect) (clientX clientY : ℚ) :
    Option Coordinate :=
  match canvas with
  | none => none
  | some rect =>
      some { x := (clientX - rect.left) / rect.width
             y := (clientY - rect.top) / rect.height }

/-- TaskWizard.tsx handleMouseDown: start a pending stroke with one point. -/
def handleMouseDown (coord : Coordinate) (s : DrawState) : DrawState :=
  { s with isDrawing := true, currentDrawing := [coord] }

/-- TaskWizard.tsx handleMouseMove.  The source reads prev[0]; while a
stroke is active the pending list is nonempty (seeded by handleMouseDown),
so headD's default is never reached on the states this development uses. -/
def handleMouseMove (mode : DrawMode) (coord : Coordinate) (s : DrawState) :
    DrawState :=
  if s.isDrawing = false then s
  else if mode = DrawMode.line ∨ mode = DrawMode.arrow then
    { s with currentDrawing := [s.currentDrawing.headD coord, coord] }
  else
    { s with currentDrawing := s.currentDrawing ++ [coord] }

/-- TaskWizard.tsx handleMouseUp.  The fresh element id is produced by
Date.now() in the source; it is passed in here as the freshId input. -/
def handleMouseUp (freshId : String) (mode : DrawMode) (s : DrawState) :
    DrawState :=
  if s.isDrawing = false ∨ s.currentDrawing.length < 2 then
    { s with isDrawing := false, currentDrawing := [] }
  else
    { isDrawing := false
      currentDrawing := []
      drawElements := s.drawElements ++
        [{ id := freshId, type := mode, points := s.currentDrawing }] }

/-- TaskWizard.tsx handleUndo: drop the most recently committed element. -/
def handleUndo (s : DrawState) : DrawState :=
  { s with drawElements := s.drawElements.dropLast }

/-- TaskWizard.tsx handleClearAll. -/
def handleClearAll (s : DrawState) : DrawState :=
  { s with drawElements := [], currentDrawing := [] }

/-- A sequence of mouse-move events applied in order. -/
def runMoves (mode : DrawMode) (ps : List Coordinate) (s : DrawState) :
    DrawState :=
  List.foldl (fun st c => handleMouseMove mode c st) s ps

/-- The state after a full begin / extend* / end gesture: mouse down at p0,
moves through ps, then mouse up. -/
def endState (mode : DrawMode) (p0 : Coordinate) (ps : List Coordinate)
    (s0 : DrawState) (freshId : String) : DrawState :=
  handleMouseUp freshId mode (runMoves mode ps (handleMouseDown p0 s0))

/-! ## Primitive renderer (TaskWizard.tsx renderElement) -/

/-- Structural model of the SVG fragment renderElement emits: a line, an
arrow (shaft endpoints; the filled head triangle is derived from them by
fixed-length offsets at ±30 degrees), an open or closed path, or nothing
(points.length < 2 returns null). -/
inductive RenderedShape where
  | lineShape (p1 p2 : Coordinate)
  | arrowShape (p1 p2 : Coordinate)
  | pathShape (points : List Coordinate) (closed : Bool)
  | nothing
deriving DecidableEq, Repr

/-- TaskWizard.tsx renderElement curve/polygon branch: keep indices with
i % 2 == 0 plus the final index. -/
def simplifyPoints (points : List Coordinate) : List Coordinate :=
  (points.enum.filter
    (fun ip => decide (ip.1 % 2 = 0 ∨ ip.1 = points.length - 1))).map Prod.snd

/-- TaskWizard.tsx renderElement: dispatch on the element kind; curve and
polygon render the simplified point list, polygon closing the path. -/
def renderElement (el : DrawElement) : RenderedShape :=
  if el.points.length < 2 then RenderedShape.nothing
  else
    match el.type with
    | DrawMode.line =>
        RenderedShape.lineShape (el.points.headD { x := 0, y := 0 })
          (el.points.getLastD { x := 0, y := 0 })
    | DrawMode.arrow =>
        RenderedShape.arrowShape (el.points.headD { x := 0, y := 0 })
          (el.points.getLastD { x := 0, y := 0 })
    | DrawMode.curve =>
        RenderedShape.pathShape (simplifyPoints el.points) false
    | DrawMode.polygon =>
        RenderedShape.pathShape (simplifyPoints el.points) true

/-- TaskWizard.tsx handleFinish: roi = drawElements.flatMap(el => el.points),
the full recorded point lists flattened in original order. -/
def wizardRoi (drawElements : List DrawElement) : List Coordinate :=
  drawElements.flatMap (fun el => el.points)

/-! ## Task list and lifecycle callbacks (App.tsx) -/

/-- App.tsx updateTaskStatus: overwrite the status of the matching task. -/
def updateTaskStatus (id : String) (status : TaskStatus) (tasks : List Task) :
    List Task :=
  tasks.map (fun t => if t.id = id then { t with status := status } else t)

/-- App.tsx handleCreateTask's delayed provisioning callback: after the
fixed delay, map the matching task to status RUNNING. -/
def provisionCallback (taskId : String) (tasks : List Task) : List Task :=
  tasks.map (fun t =>
    if t.id = taskId then { t with status := TaskStatus.RUNNING } else t)

/-- App.tsx updateTaskSampleCount: replace sample_count.total of the
matching task, spreading the rest of the record unchanged. -/
def updateTaskSampleCount (id : String) (count : Nat) (tasks : List Task) :
    List Task :=
  tasks.map (fun t =>
    if t.id = id then
      { t with sample_count := { t.sample_count with total := count } }
    else t)

/-- App.tsx handleDeleteTask (after the user confirms): filter the task out. -/
def handleDeleteTask (taskId : String) (tasks : List Task) : List Task :=
  tasks.filter (fun t => decide (t.id ≠ taskId))

/-! ## Single-task lifecycle event machine

App.tsx renders, per task row: a stop button only while status = RUNNING
(→ STOPPED), a start button otherwise (→ RUNNING), and a fine-tuning-drawer
button disabled only while status = TRAINING.  TaskDrawer.handleStartTraining
is enabled only while canTrain holds on the drawer's samples and then sets
the status to TRAINING and closes the drawer.  The INIT→RUNNING provisioning
callback sets status RUNNING.  The machine below is that button logic for
one task whose thresholds are pt / nt. -/

/-- Lifecycle state of one task together with the fine-tuning drawer:
drawerSamples is some samples exactly while the drawer is open. -/
structure AppState where
  status : TaskStatus
  drawerSamples : Option (List SampleImage)
deriving DecidableEq, Repr

/-- The discrete user / timer events that can change a task's status. -/
inductive UserOp where
  | start
  | stop
  | openDrawer
  | closeDrawer
  | labelSample (id : String) (l : LabelStatus)
  | startTraining
  | provisionFire
deriving DecidableEq, Repr

/-- One step of the lifecycle machine, following the guards rendered in
App.tsx and TaskDrawer.tsx for a task with thresholds pt / nt. -/
def tStep (pt nt : Nat) (s : AppState) (op : UserOp) : AppState :=
  match op with
  | UserOp.start =>
      if s.status ≠ TaskStatus.RUNNING then
        { s with status := TaskStatus.RUNNING }
      else s
  | UserOp.stop =>
      if s.status = TaskStatus.RUNNING then
        { s with status := TaskStatus.STOPPED }
      else s
  | UserOp.openDrawer =>
      if s.status ≠ TaskStatus.TRAINING ∧ s.drawerSamples = none then
        let fresh := generateMockSamples (fun _ => 1 / 2) ("t0") 50
        { s with drawerSamples := some fresh }
      else s
  | UserOp.closeDrawer => { s with drawerSamples := none }
  | UserOp.labelSample id l =>
      match s.drawerSamples with
      | some samples =>
          { s with drawerSamples := some (handleLabel id l samples) }
      | none => s
  | UserOp.startTraining =>
      match s.drawerSamples with
      | some samples =>
          if canTrain pt nt samples then
            { status := TaskStatus.TRAINING, drawerSamples := none }
          else s
      | none => s
  | UserOp.provisionFire => { s with status := TaskStatus.RUNNING }

/-- Run a sequence of lifecycle events. -/
def runOps (pt nt : Nat) (s : AppState) (ops : List UserOp) : AppState :=
  List.foldl (tStep pt nt) s ops

/-! ## Rule-parsing collaborator (geminiService.ts) -/

/-- geminiService.ts: interface ParsedRule.  suggested_level is typed
'HIGH' | 'MEDIUM' | 'LOW' and modelled by the AlarmLevel enum. -/
structure ParsedRule where
  object_name : String
  action_description : String
  suggested_duration : ℚ
  suggested_level : AlarmLevel
  valid : Bool
  reason : Option String
deriving DecidableEq, Repr

/-- Outcome of the awaited generateContent call: ok carries a successfully
returned and JSON-parsed rule; transportFailure covers every thrown path
(network error, empty response.text, JSON.parse failure). -/
inductive ApiOutcome where
  | ok (r : ParsedRule)
  | transportFailure
deriving DecidableEq, Repr

/-- geminiService.ts catch branch: the generic fallback result. -/
def fallbackRule (userInput : String) : ParsedRule :=
  { object_name := ("Unknown")
    action_description := userInput
    suggested_duration := 0
    suggested_level := AlarmLevel.MEDIUM
    valid := false
    reason := some ("API Error or Timeout") }

/-- geminiService.ts missing-API-key branch: the mock demo response. -/
def mockRule (userInput : String) : ParsedRule :=
  { object_name := ("Mock Object")
    action_description := userInput
    suggested_duration := 3
    suggested_level := AlarmLevel.HIGH
    valid := true
    reason := none }

/-- geminiService.ts parseRuleDescription: a total function — the internal
try/catch maps every transport failure to fallbackRule, so no exception
ever propagates to the caller. -/
def parseRuleDescription (apiKey userInput : String) (api : ApiOutcome) :
    ParsedRule :=
  if apiKey = "" then mockRule userInput
  else
    match api with
    | ApiOutcome.ok r => r
    | ApiOutcome.transportFailure => fallbackRule userInput

/-- The wizard state touched by TaskWizard.handleParse. -/
structure WizardAiState where
  duration : ℚ
  alarmLevel : AlarmLevel
  genAiResult : Option ParsedRule
  genAiError : Option String
deriving DecidableEq, Repr

/-- TaskWizard.tsx handleParse: early-return on blank input; on a valid
result store it and apply suggested duration and level (both fields are
required in the response schema, so the definedness checks in the source
always pass); otherwise only record the error text. -/
def handleParse (apiKey genAiInput : String) (api : ApiOutcome)
    (s : WizardAiState) : WizardAiState :=
  if genAiInput.trim = "" then s
  else
    let result := parseRuleDescription apiKey genAiInput api
    if result.valid then
      { duration := result.suggested_duration
        alarmLevel := result.suggested_level
        genAiResult := some result
        genAiError := none }
    else
      { s with genAiResult := none
               genAiError := some (result.reason.getD ("语义模糊，请重新描述")) }

/-! ## Task-name auto-fill (TaskWizard.tsx useEffect) -/

/-- TaskWizard.tsx PRESET_ALGORITHMS. -/
def PRESET_ALGORITHMS : List Algorithm :=
  [ { id := ("fire"), name := ("火焰检测"), description := ("检测明火及早期烟雾")
      version := ("v2.1"), icon := ("🔥"), type := ("PRESET") }
  , { id := ("helmet"), name := ("安全帽检测"), description := ("识别未佩戴安全帽")
      version := ("v1.4"), icon := ("⛑️"), type := ("PRESET") }
  , { id := ("intrusion"), name := ("区域入侵"), description := ("检测人员进入禁区")
      version := ("v3.0"), icon := ("🏃"), type := ("PRESET") }
  , { id := ("smoking"), name := ("吸烟检测"), description := ("识别吸烟动作")
      version := ("v1.2"), icon := ("🚬"), type := ("PRESET") } ]

/-- The wizard state read and written by the auto-name effect. -/
structure WizardNameState where
  taskName : String
  selectedAlgoId : Option String
  enableAiCustom : Bool
  genAiResult : Option ParsedRule
deriving DecidableEq, Repr

/-- TaskWizard.tsx auto-name useEffect body: only acts while taskName is
empty; derives the base name from the selected preset algorithm, appends
the AI object name when AI custom is enabled with a nonempty
action_description, and suffixes the current date (format MMdd, passed in
as today). -/
def autoNameEffect (today : String) (s : WizardNameState) : WizardNameState :=
  if s.taskName ≠ ("") then s
  else
    let base0 : String :=
      match s.selectedAlgoId with
      | some aid =>
          ((PRESET_ALGORITHMS.find? (fun a => decide (a.id = aid))).map
            Algorithm.name).getD ("")
      | none => ("")
    let base : String :=
      if s.enableAiCustom = true ∧
          ((s.genAiResult.map ParsedRule.action_description).getD ("")) ≠ ("")
      then base0 ++ (" + ") ++ ((s.genAiResult.map ParsedRule.object_name).getD (""))
      else base0
    if base ≠ ("") then { s with taskName := base ++ ("_") ++ today } else s

/-- The events that touch the effect's dependencies: a user edit of the
name field, selecting a preset algorithm, toggling AI custom (guarded in
the source by an algorithm being selected), and a new AI parse result.
React re-runs the effect after each of them. -/
inductive NameEvent where
  | userSetName (v : String)
  | selectAlgo (aid : String)
  | toggleAi
  | setAiResult (r : Option ParsedRule)
deriving DecidableEq, Repr

/-- Whether the event is a user edit of the task-name field. -/
def isNameEdit : NameEvent → Bool
  | NameEvent.userSetName _ => true
  | _ => false

/-- The state change performed by each event's handler. -/
def applyNameEvent (s : WizardNameState) : NameEvent → WizardNameState
  | NameEvent.userSetName v => { s with taskName := v }
  | NameEvent.selectAlgo aid => { s with selectedAlgoId := some aid }
  | NameEvent.toggleAi =>
      match s.selectedAlgoId with
      | some _ => { s with enableAiCustom := !s.enableAiCustom }
      | none => s
  | NameEvent.setAiResult r => { s with genAiResult := r }

/-- Apply one event followed by the auto-name effect. -/
def nameStep (today : String) (s : WizardNameState) (e : NameEvent) :
    WizardNameState :=
  autoNameEffect today (applyNameEvent s e)

/-- Run a sequence of name-affecting events. -/
def runNameEvents (today : String) (s : WizardNameState)
    (events : List NameEvent) : WizardNameState :=
  List.foldl (nameStep today) s events

/-! ## Concrete instances used by the example-based parts of the claims -/

/-- A preset algorithm record used by the concrete task instances. -/
def demoAlgorithm : Algorithm :=
  { id := ("smoking"), name := ("吸烟检测"), description := ("")
    version := ("v1.0"), icon := ("🚬"), type := ("PRESET") }

/-- A task whose fine-tuning thresholds are positive 3 / negative 2, as in
the worked example of the spec. -/
def demoTask : Task :=
  { id := ("task_01")
    name := ("仓库吸烟检测")
    camera_ids := [("cam2")]
    roi := []
    algorithm := demoAlgorithm
    nlp_text := none
    duration := 3
    alarm_level := AlarmLevel.HIGH
    status := TaskStatus.RUNNING
    sample_count :=
      { total := 45, labeled := 32, positive_threshold := 3
        negative_threshold := 2 }
    created_at := ("2023-10-25T10:00:00Z") }

/-- The drawer's 50 freshly generated unlabeled mock samples. -/
def demoSamples : List SampleImage :=
  generateMockSamples (fun _ => 1 / 2) ("t0") 50

/-- Three samples labeled positive and one negative. -/
def demoLabeled1 : List SampleImage :=
  handleLabel ("sample_3") LabelStatus.NEGATIVE
    (handleLabel ("sample_2") LabelStatus.POSITIVE
      (handleLabel ("sample_1") LabelStatus.POSITIVE
        (handleLabel ("sample_0") LabelStatus.POSITIVE demoSamples)))

/-- One more sample labeled negative. -/
def demoLabeled2 : List SampleImage :=
  handleLabel ("sample_4") LabelStatus.NEGATIVE demoLabeled1

/-- Lifecycle scenario: a freshly created task (status INIT), the drawer
opened on it (allowed, since its status is not TRAINING), and enough
samples labeled to satisfy thresholds 1 / 1. -/
def initDrawerState : AppState :=
  runOps 1 1 { status := TaskStatus.INIT, drawerSamples := none }
    [ UserOp.openDrawer
    , UserOp.labelSample ("sample_0") LabelStatus.POSITIVE
    , UserOp.labelSample ("sample_1") LabelStatus.NEGATIVE ]

/-- The four polygon vertices of the spec's worked ROI example. -/
def roiP0 : Coordinate := { x := 1 / 10, y := 1 / 10 }

def roiP1 : Coordinate := { x := 4 / 10, y := 1 / 10 }

def roiP2 : Coordinate := { x := 4 / 10, y := 4 / 10 }

def roiP3 : Coordinate := { x := 1 / 10, y := 4 / 10 }

/-- Drawing that polygon from an empty session: begin at roiP0, extend
through the other three vertices, end. -/
def roiDrawn : DrawState :=
  endState DrawMode.polygon roiP0 [roiP1, roiP2, roiP3]
    { isDrawing := false, currentDrawing := [], drawElements := [] } ("draw_1")

/-- Two samples, one already positive and one already negative: the state
in which the training gate is satisfied at thresholds 1 / 1. -/
def gateSamples : List SampleImage :=
  [ { id := ("a"), url := ("u0"), confidence := 1 / 2
      label := LabelStatus.POSITIVE, timestamp := ("t") }
  , { id := ("b"), url := ("u1"), confidence := 1 / 2
      label := LabelStatus.NEGATIVE, timestamp := ("t") } ]

/-- gateSamples together with a third, still unlabeled sample. -/
def gateSamples3 : List SampleImage :=
  gateSamples ++
    [ { id := ("c"), url := ("u2"), confidence := 1 / 2
        label := LabelStatus.UNLABELED, timestamp := ("t") } ]

/-- A wizard draft whose name the user already edited, with no algorithm
selected yet. -/
def editedNameState : WizardNameState :=
  { taskName := ("my task"), selectedAlgoId := none
    enableAiCustom := false, genAiResult := none }

/-- The user clears the name field. -/
def clearedNameState : WizardNameState :=
  nameStep ("1012") editedNameState (NameEvent.userSetName (""))

/-- ... and then selects the fire-detection preset. -/
def refilledNameState : WizardNameState :=
  nameStep ("1012") clearedNameState (NameEvent.selectAlgo ("fire"))

/-- Two small tasks used to witness the frame property of
updateTaskSampleCount. -/
def demoTaskB : Task :=
  { demoTask with
      id := ("task_02")
      name := ("入口未戴安全帽")
      status := TaskStatus.STOPPED }

def demoTasks : List Task := [demoTask, demoTaskB]

/-! ## Helper lemmas -/

theorem filter_length_cons {α : Type} (p : α → Bool) (x : α) (xs : List α) :
    ((x :: xs).filter p).length =
      (if p x = true then 1 else 0) + (xs.filter p).length := by
  by_cases h : p x = true <;> simp [List.filter_cons, h] <;> omega

theorem statsPositive_cons (x : SampleImage) (xs : List SampleImage) :
    statsPositive (x :: xs) =
      (if x.label = LabelStatus.POSITIVE then 1 else 0) + statsPositive xs := by
  by_cases h : x.label = LabelStatus.POSITIVE <;>
    simp [statsPositive, List.filter_cons, h] <;> omega

theorem statsNegative_cons (x : SampleImage) (xs : List SampleImage) :
    statsNegative (x :: xs) =
      (if x.label = LabelStatus.NEGATIVE then 1 else 0) + statsNegative xs := by
  by_cases h : x.label = LabelStatus.NEGATIVE <;>
    simp [statsNegative, List.filter_cons, h] <;> omega

/-- Relabeling a sample that does not currently carry the counted label can
only keep or grow the count of that label. -/
theorem filterLabel_handleLabel_le (lab : LabelStatus) (id : String)
    (l : LabelStatus) (samples : List SampleImage)
    (hfresh : ∀ s ∈ samples, s.id = id → s.label ≠ lab) :
    (samples.filter (fun s => decide (s.label = lab))).length ≤
      ((handleLabel id l samples).filter
        (fun s => decide (s.label = lab))).length := by
  induction samples with
  | nil => exact Nat.le_refl _
  | cons s t ih =>
    have hs := hfresh s (List.mem_cons_self s t)
    have iht := ih (fun a ha h => hfresh a (List.mem_cons_of_mem s ha) h)
    simp only [handleLabel, List.map_cons] at iht ⊢
    rw [filter_length_cons, filter_length_cons]
    by_cases hid : s.id = id
    · rw [if_pos hid]
      have hlab : ¬(decide (s.label = lab) = true) := by
        simp [hs hid]
      rw [if_neg hlab, Nat.zero_add]
      exact le_trans iht (Nat.le_add_left _ _)
    · rw [if_neg hid]
      exact Nat.add_le_add_left iht _

theorem autoNameEffect_of_ne (today : String) (s : WizardNameState)
    (h : s.taskName ≠ ("")) : autoNameEffect today s = s := by
  unfold autoNameEffect
  rw [if_pos h]

theorem runMoves_nil (mode : DrawMode) (s : DrawState) :
    runMoves mode [] s = s := rfl

theorem runMoves_cons (mode : DrawMode) (q : Coordinate) (qs : List Coordinate)
    (s : DrawState) :
    runMoves mode (q :: qs) s = runMoves mode qs (handleMouseMove mode q s) :=
  rfl

/-- Freeform kinds append every move to the pending stroke. -/
theorem runMoves_freeform (mode : DrawMode)
    (hm : mode = DrawMode.curve ∨ mode = DrawMode.polygon)
    (ps : List Coordinate) (cur : List Coordinate) (es : List DrawElement) :
    runMoves mode ps
        { isDrawing := true, currentDrawing := cur, drawElements := es }
      = { isDrawing := true, currentDrawing := cur ++ ps, drawElements := es } := by
  have hline : ¬(mode = DrawMode.line ∨ mode = DrawMode.arrow) := by
    rcases hm with h | h <;> subst h <;> simp
  induction ps generalizing cur with
  | nil => simp [runMoves]
  | cons q qs ih =>
    rw [runMoves_cons]
    have hmv : handleMouseMove mode q
        { isDrawing := true, currentDrawing := cur, drawElements := es }
        = { isDrawing := true, currentDrawing := cur ++ [q], drawElements := es } := by
      simp [handleMouseMove, hline]
    rw [hmv, ih (cur ++ [q])]
    simp

/-- Two-point kinds keep the pending stroke at [start, latest]. -/
theorem runMoves_twopoint (mode : DrawMode)
    (hm : mode = DrawMode.line ∨ mode = DrawMode.arrow)
    (q : Coordinate) (qs : List Coordinate) (p0 : Coordinate)
    (rest : List Coordinate) (es : List DrawElement) :
    runMoves mode (q :: qs)
        { isDrawing := true, currentDrawing := p0 :: rest, drawElements := es }
      = { isDrawing := true, currentDrawing := [p0, qs.getLastD q]
          drawElements := es } := by
  induction qs generalizing q rest with
  | nil =>
    rw [runMoves_cons, runMoves_nil]
    simp [handleMouseMove, hm]
  | cons q2 qs2 ih =>
    rw [runMoves_cons]
    have hmv : handleMouseMove mode q
        { isDrawing := true, currentDrawing := p0 :: rest, drawElements := es }
        = { isDrawing := true, currentDrawing := p0 :: [q], drawElements := es } := by
      simp [handleMouseMove, hm]
    rw [hmv, ih q2 [q], List.getLastD_cons]

theorem handleMouseUp_clears (freshId : String) (mode : DrawMode)
    (s : DrawState) :
    (handleMouseUp freshId mode s).isDrawing = false ∧
    (handleMouseUp freshId mode s).currentDrawing = [] := by
  unfold handleMouseUp
  split <;> simp

/-- Mapping a guarded per-task update over a list in which no task matches
the id is the identity. -/
theorem map_guarded_id (f : Task → Task) (id : String) (tasks : List Task)
    (h : ∀ t ∈ tasks, t.id ≠ id) :
    tasks.map (fun t => if t.id = id then f t else t) = tasks := by
  induction tasks with
  | nil => rfl
  | cons t ts ih =>
    have h1 := h t (List.mem_cons_self t ts)
    simp only [List.map_cons, if_neg h1]
    rw [ih (fun a ha => h a (List.mem_cons_of_mem t ha))]

/-! ## Claim theorems -/

/-- C1: canTrain() is true iff the positive count is at least
positive_threshold and the negative count is at least negative_threshold,
both recomputed by scanning current labels; with thresholds positive 3 /
negative 2, labeling 3 samples positive and 1 negative gives false, and one
more negative gives true. -/
theorem canTrain_iff_both_thresholds :
    (∀ (task : Task) (samples : List SampleImage),
      canTrainFor task samples = true ↔
        task.sample_count.positive_threshold ≤ statsPositive samples ∧
          task.sample_count.negative_threshold ≤ statsNegative samples) ∧
    canTrainFor demoTask demoLabeled1 = false ∧
    canTrainFor demoTask demoLabeled2 = true := by
  refine ⟨fun task samples => ?_, by decide, by decide⟩
  simp [canTrainFor, canTrain]

/-- C5: if a task is deleted while its INIT→RUNNING provisioning callback
is pending, the later firing of the callback leaves the task list
unchanged: it neither resurrects the removed task nor touches any other
task. -/
theorem provision_after_delete_noop (taskId : String) (tasks : List Task) :
    provisionCallback taskId (handleDeleteTask taskId tasks)
      = handleDeleteTask taskId tasks := by
  have h : ∀ t ∈ handleDeleteTask taskId tasks, t.id ≠ taskId := by
    intro t ht
    have := List.of_mem_filter ht
    simpa using this
  exact map_guarded_id (fun t => { t with status := TaskStatus.RUNNING })
    taskId (handleDeleteTask taskId tasks) h

/-- C8 counterexample: canTrain is not monotone under arbitrary labeling:
with thresholds 1 / 1 and one positive plus one negative sample, relabeling
the positive sample as negative flips canTrain from true to false. -/
theorem canTrain_not_monotone :
    canTrain 1 1 gateSamples = true ∧
    canTrain 1 1 (handleLabel ("a") LabelStatus.NEGATIVE gateSamples)
      = false := by
  decide

/-- C8 amended: canTrain is monotone non-decreasing under labeling a sample
positive or negative provided the relabeled sample was not itself counted
before, i.e. every sample with the target id is currently UNLABELED or
IGNORED; relabeling an already-counted sample can lower a count. -/
theorem canTrain_monotone_fresh (pt nt : Nat) (samples : List SampleImage)
    (id : String) (l : LabelStatus)
    (hl : l = LabelStatus.POSITIVE ∨ l = LabelStatus.NEGATIVE)
    (hfresh : ∀ s ∈ samples, s.id = id →
      s.label = LabelStatus.UNLABELED ∨ s.label = LabelStatus.IGNORED)
    (h : canTrain pt nt samples = true) :
    canTrain pt nt (handleLabel id l samples) = true := by
  simp only [canTrain, Bool.and_eq_true, decide_eq_true_eq] at h ⊢
  have hp : statsPositive samples ≤ statsPositive (handleLabel id l samples) := by
    refine filterLabel_handleLabel_le LabelStatus.POSITIVE id l samples ?_
    intro s hs hid
    rcases hfresh s hs hid with h1 | h1 <;> simp [h1]
  have hn : statsNegative samples ≤ statsNegative (handleLabel id l samples) := by
    refine filterLabel_handleLabel_le LabelStatus.NEGATIVE id l samples ?_
    intro s hs hid
    rcases hfresh s hs hid with h1 | h1 <;> simp [h1]
  exact ⟨le_trans h.1 hp, le_trans h.2 hn⟩

/-- Witness for C8's amended theorem: labeling the still-unlabeled third
sample positive keeps the 1 / 1 gate satisfied. -/
theorem canTrain_monotone_fresh_witness :
    canTrain 1 1 (handleLabel ("c") LabelStatus.POSITIVE gateSamples3) = true :=
  canTrain_monotone_fresh 1 1 gateSamples3 ("c") LabelStatus.POSITIVE
    (Or.inl rfl) (by decide) (by decide)

/-- C10: updateTaskSampleCount changes only sample_count.total of the tasks
whose id matches (every other field of the record is spread unchanged),
leaves every non-matching task untouched, and is the identity when no task
carries the id. -/
theorem updateTaskSampleCount_frame (id : String) (count : Nat)
    (tasks : List Task) :
    (updateTaskSampleCount id count tasks).length = tasks.length ∧
    (∀ (i : Nat) (t : Task), tasks[i]? = some t →
      (t.id = id →
        (updateTaskSampleCount id count tasks)[i]? =
          some { t with sample_count := { t.sample_count with total := count } }) ∧
      (t.id ≠ id → (updateTaskSampleCount id count tasks)[i]? = some t)) ∧
    ((∀ t ∈ tasks, t.id ≠ id) → updateTaskSampleCount id count tasks = tasks) := by
  refine ⟨by simp [updateTaskSampleCount],
    fun i t ht => ⟨fun hid => ?_, fun hid => ?_⟩,
    fun h => map_guarded_id _ id tasks h⟩
  · simp [updateTaskSampleCount, List.getElem?_map, ht, hid]
  · simp [updateTaskSampleCount, List.getElem?_map, ht, hid]

/-- Witness for C10: updating task_01's sample total to 7 in the two-task
demo list rewrites exactly that field and leaves task_02 intact. -/
theorem updateTaskSampleCount_frame_witness :
    (updateTaskSampleCount ("task_01") 7 demoTasks)[0]? =
      some { demoTask with
              sample_count := { demoTask.sample_count with total := 7 } } ∧
    (updateTaskSampleCount ("task_01") 7 demoTasks)[1]? = some demoTaskB := by
  have h := updateTaskSampleCount_frame ("task_01") 7 demoTasks
  exact ⟨(h.2.1 0 demoTask rfl).1 rfl, (h.2.1 1 demoTaskB rfl).2 (by decide)⟩

/-- C2 counterexample: a direct INIT→TRAINING step is reachable.  The
fine-tuning-drawer button is disabled only while the status is TRAINING, so
the drawer can be opened on a task still in INIT; labeling enough samples
and starting training then moves the task from INIT straight to TRAINING. -/
theorem init_to_training_direct :
    initDrawerState.status = TaskStatus.INIT ∧
    (tStep 1 1 initDrawerState UserOp.startTraining).status
      = TaskStatus.TRAINING := by
  decide

/-- C2 amended: no operation ever takes a task directly from INIT to
STOPPED (the stop button is rendered only while the task is RUNNING), but
the claimed INIT→TRAINING exclusion fails: that transition is reachable
through the fine-tuning drawer. -/
theorem no_init_to_stopped (pt nt : Nat) (s : AppState) (op : UserOp)
    (h : s.status = TaskStatus.INIT) :
    (tStep pt nt s op).status ≠ TaskStatus.STOPPED := by
  cases op <;> simp only [tStep] <;> (try split) <;> (try split) <;> simp_all

/-- Witness for C2's amended theorem: pressing stop on an INIT task does
not move it to STOPPED. -/
theorem no_init_to_stopped_witness :
    (tStep 1 1 { status := TaskStatus.INIT, drawerSamples := none }
        UserOp.stop).status ≠ TaskStatus.STOPPED :=
  no_init_to_stopped 1 1 { status := TaskStatus.INIT, drawerSamples := none }
    UserOp.stop rfl

/-- C3 counterexample: getCanvasCoords performs no clamping: a client point
10px left of the canvas yields x = −1/10 < 0, and handleMouseDown stores
that point as-is in the pending stroke. -/
theorem capture_not_clamped :
    getCanvasCoords (some { left := 0, top := 0, width := 100, height := 100 })
        (-10) 50 = some { x := -1 / 10, y := 1 / 2 } ∧
    (handleMouseDown { x := -1 / 10, y := 1 / 2 }
        { isDrawing := false, currentDrawing := []
          drawElements := [] }).currentDrawing
      = [{ x := -1 / 10, y := 1 / 2 }] ∧
    ¬(0 ≤ (-1 / 10 : ℚ)) := by
  refine ⟨?_, rfl, by norm_num⟩
  simp only [getCanvasCoords, Option.some.injEq, Coordinate.mk.injEq]
  constructor <;> norm_num

/-- C3 amended: capture normalizes (clientX−left)/width, (clientY−top)/height
with no clamping; whenever the event's client point lies inside the canvas
rect (of positive size) the captured coordinate lies in [0,1]×[0,1], and
points outside the rect produce coordinates outside the unit square. -/
theorem capture_in_unit_square (rect : ClientRect) (clientX clientY : ℚ)
    (hw : 0 < rect.width) (hh : 0 < rect.height)
    (hx1 : rect.left ≤ clientX) (hx2 : clientX ≤ rect.left + rect.width)
    (hy1 : rect.top ≤ clientY) (hy2 : clientY ≤ rect.top + rect.height) :
    getCanvasCoords (some rect) clientX clientY =
      some { x := (clientX - rect.left) / rect.width
             y := (clientY - rect.top) / rect.height } ∧
    0 ≤ (clientX - rect.left) / rect.width ∧
    (clientX - rect.left) / rect.width ≤ 1 ∧
    0 ≤ (clientY - rect.top) / rect.height ∧
    (clientY - rect.top) / rect.height ≤ 1 := by
  refine ⟨rfl, div_nonneg (by linarith) hw.le, ?_,
    div_nonneg (by linarith) hh.le, ?_⟩
  · rw [div_le_one hw]
    linarith
  · rw [div_le_one hh]
    linarith

/-- Witness for C3's amended theorem at a concrete in-rect event. -/
theorem capture_in_unit_square_witness :
    getCanvasCoords (some { left := 0, top := 0, width := 100, height := 100 })
        30 50 =
      some { x := ((30 : ℚ) - 0) / 100, y := ((50 : ℚ) - 0) / 100 } ∧
    0 ≤ ((30 : ℚ) - 0) / 100 ∧ ((30 : ℚ) - 0) / 100 ≤ 1 ∧
    0 ≤ ((50 : ℚ) - 0) / 100 ∧ ((50 : ℚ) - 0) / 100 ≤ 1 :=
  capture_in_unit_square { left := 0, top := 0, width := 100, height := 100 }
    30 50 (by norm_num) (by norm_num) (by norm_num) (by norm_num)
    (by norm_num) (by norm_num)

/-- C4: a begin/extend*/end gesture recording at least two points commits
exactly one new element carrying the supplied fresh id and the active kind,
with the full recorded sequence as points for curve/polygon and
[first, latest] for line/arrow; a gesture recording fewer than two points
commits nothing; the pending stroke is cleared in every case. -/
theorem end_commits_exactly (mode : DrawMode) (p0 : Coordinate)
    (ps : List Coordinate) (s0 : DrawState) (freshId : String) :
    ((endState mode p0 ps s0 freshId).isDrawing = false ∧
      (endState mode p0 ps s0 freshId).currentDrawing = []) ∧
    (ps = [] → (endState mode p0 ps s0 freshId).drawElements
      = s0.drawElements) ∧
    (ps ≠ [] →
      (endState mode p0 ps s0 freshId).drawElements =
        s0.drawElements ++
          [{ id := freshId, type := mode
             points :=
               if mode = DrawMode.line ∨ mode = DrawMode.arrow then
                 [p0, ps.getLastD p0]
               else p0 :: ps }]) := by
  refine ⟨handleMouseUp_clears freshId mode _, fun hnil => ?_, fun hne => ?_⟩
  · subst hnil
    simp [endState, runMoves_nil, handleMouseDown, handleMouseUp]
  · rcases ps with _ | ⟨q, qs⟩
    · exact absurd rfl hne
    · by_cases hm : mode = DrawMode.line ∨ mode = DrawMode.arrow
      · rw [if_pos hm]
        unfold endState
        rw [show handleMouseDown p0 s0 =
            { isDrawing := true, currentDrawing := p0 :: ([] : List Coordinate)
              drawElements := s0.drawElements } from rfl]
        rw [runMoves_twopoint mode hm q qs p0 [] s0.drawElements]
        rw [List.getLastD_cons]
        simp [handleMouseUp]
      · have hm2 : mode = DrawMode.curve ∨ mode = DrawMode.polygon := by
          cases mode <;> simp_all
        rw [if_neg hm]
        unfold endState
        rw [show handleMouseDown p0 s0 =
            { isDrawing := true, currentDrawing := [p0]
              drawElements := s0.drawElements } from rfl]
        rw [runMoves_freeform mode hm2 (q :: qs) [p0] s0.drawElements]
        simp only [handleMouseUp]
        split
        · simp_all
          omega
        · simp

/-- Witness for C4: a two-point line gesture commits one line element with
exactly its first and latest points. -/
theorem end_commits_exactly_witness :
    (endState DrawMode.line { x := 0, y := 0 } [{ x := 1, y := 1 }]
        { isDrawing := false, currentDrawing := [], drawElements := [] }
        ("d1")).drawElements
      = [{ id := ("d1"), type := DrawMode.line
           points := [{ x := 0, y := 0 }, { x := 1, y := 1 }] }] := by
  have h := (end_commits_exactly DrawMode.line { x := 0, y := 0 }
    [{ x := 1, y := 1 }]
    { isDrawing := false, currentDrawing := [], drawElements := [] }
    ("d1")).2.2 (by simp)
  simpa using h

/-- C6: with an API key present, a transport failure of the rule-parsing
call yields exactly the generic valid=false fallback result (the function
is total, so no exception propagates), handleParse cannot distinguish the
failure from an ok response carrying that fallback, and duration and alarm
level are left untouched whenever the returned result has valid = false. -/
theorem transport_failure_fallback (apiKey genAiInput : String)
    (s : WizardAiState) (hk : apiKey ≠ ("")) :
    parseRuleDescription apiKey genAiInput ApiOutcome.transportFailure
      = fallbackRule genAiInput ∧
    (fallbackRule genAiInput).valid = false ∧
    handleParse apiKey genAiInput ApiOutcome.transportFailure s
      = handleParse apiKey genAiInput (ApiOutcome.ok (fallbackRule genAiInput)) s ∧
    (∀ api : ApiOutcome,
      (parseRuleDescription apiKey genAiInput api).valid = false →
      (handleParse apiKey genAiInput api s).duration = s.duration ∧
      (handleParse apiKey genAiInput api s).alarmLevel = s.alarmLevel) := by
  refine ⟨by simp [parseRuleDescription, hk], rfl,
    by simp [handleParse, parseRuleDescription, hk], fun api hv => ?_⟩
  unfold handleParse
  by_cases ht : genAiInput.trim = ("")
  · simp [ht]
  · simp [ht, hv]

/-- Witness for C6: a concrete transport failure leaves duration 7 and
level HIGH untouched. -/
theorem transport_failure_fallback_witness :
    (handleParse ("k") ("detect smoke") ApiOutcome.transportFailure
        { duration := 7, alarmLevel := AlarmLevel.HIGH
          genAiResult := none, genAiError := none }).duration = 7 ∧
    (handleParse ("k") ("detect smoke") ApiOutcome.transportFailure
        { duration := 7, alarmLevel := AlarmLevel.HIGH
          genAiResult := none, genAiError := none }).alarmLevel
      = AlarmLevel.HIGH :=
  (transport_failure_fallback ("k") ("detect smoke")
      { duration := 7, alarmLevel := AlarmLevel.HIGH
        genAiResult := none, genAiError := none }
      (by decide)).2.2.2 ApiOutcome.transportFailure (by decide)

/-- C7: for curve/polygon gestures the committed element renders from the
simplified point list (every second sample plus the final point) while the
saved ROI flattens the full recorded point lists in original order; the
worked polygon through (0.1,0.1), (0.4,0.1), (0.4,0.4), (0.1,0.4) saves
exactly those four points in order and renders as a closed path starting
at (0.1,0.1). -/
theorem render_simplified_roi_full :
    (∀ mode : DrawMode, mode = DrawMode.curve ∨ mode = DrawMode.polygon →
      ∀ (p0 q : Coordinate) (qs : List Coordinate) (s0 : DrawState)
        (freshId : String),
        wizardRoi (endState mode p0 (q :: qs) s0 freshId).drawElements
          = wizardRoi s0.drawElements ++ (p0 :: q :: qs) ∧
        ((endState mode p0 (q :: qs) s0 freshId).drawElements.getLast?).map
            renderElement
          = some (RenderedShape.pathShape (simplifyPoints (p0 :: q :: qs))
              (decide (mode = DrawMode.polygon)))) ∧
    wizardRoi roiDrawn.drawElements = [roiP0, roiP1, roiP2, roiP3] ∧
    roiDrawn.drawElements.map renderElement =
      [RenderedShape.pathShape [roiP0, roiP2, roiP3] true] := by
  refine ⟨fun mode hm p0 q qs s0 freshId => ?_, rfl, rfl⟩
  have hline : ¬(mode = DrawMode.line ∨ mode = DrawMode.arrow) := by
    rcases hm with h | h <;> subst h <;> simp
  have hel : (endState mode p0 (q :: qs) s0 freshId).drawElements =
      s0.drawElements ++
        [{ id := freshId, type := mode, points := p0 :: q :: qs }] := by
    unfold endState
    rw [show handleMouseDown p0 s0 =
        { isDrawing := true, currentDrawing := [p0]
          drawElements := s0.drawElements } from rfl]
    rw [runMoves_freeform mode hm (q :: qs) [p0] s0.drawElements]
    simp only [handleMouseUp]
    split
    · simp_all
      omega
    · simp
  rw [hel]
  constructor
  · simp [wizardRoi]
  · rw [List.getLast?_concat]
    rcases hm with h | h <;> subst h <;> simp [renderElement]

/-- Witness for C7: the worked polygon example instantiates the general
curve/polygon statement. -/
theorem render_simplified_roi_full_witness :
    wizardRoi roiDrawn.drawElements =
      wizardRoi (([] : List DrawElement)) ++ [roiP0, roiP1, roiP2, roiP3] :=
  (render_simplified_roi_full.1 DrawMode.polygon (Or.inr rfl) roiP0 roiP1
      [roiP2, roiP3]
      { isDrawing := false, currentDrawing := [], drawElements := [] }
      ("draw_1")).1

/-- C9 counterexample: the auto-fill guard is emptiness of the field, not a
user-has-edited flag: after the user edits the name by clearing it (here
with no algorithm selected, so the field stays empty), a subsequent
algorithm selection auto-fills the field again. -/
theorem autofill_after_edit :
    clearedNameState.taskName = ("") ∧
    refilledNameState.taskName = ("火焰检测_1012") := by
  decide

/-- C9 amended: auto-fill applies exactly while the name field is empty:
while the field is empty and a preset algorithm is selected (and AI custom
is off), the effect derives the name from the algorithm name plus the
current date; once the user edits the name to a non-empty value, no
subsequent sequence of algorithm or AI-result changes overwrites it — but
an edit that clears the field re-enables auto-fill. -/
theorem autofill_only_while_empty (today : String) (s : WizardNameState)
    (v : String) (hv : v ≠ ("")) (events : List NameEvent)
    (hev : ∀ e ∈ events, isNameEdit e = false) :
    (runNameEvents today
        (nameStep today s (NameEvent.userSetName v)) events).taskName = v ∧
    (∀ (s2 : WizardNameState) (aid : String) (a : Algorithm),
      s2.taskName = ("") → s2.selectedAlgoId = some aid →
      PRESET_ALGORITHMS.find? (fun x => decide (x.id = aid)) = some a →
      s2.enableAiCustom = false → a.name ≠ ("") →
      (autoNameEffect today s2).taskName = a.name ++ ("_") ++ today) := by
  constructor
  · have hstart : (nameStep today s (NameEvent.userSetName v)).taskName = v := by
      unfold nameStep
      rw [autoNameEffect_of_ne today _ hv]
      rfl
    have hpres : ∀ (es : List NameEvent), (∀ e ∈ es, isNameEdit e = false) →
        ∀ st : WizardNameState, st.taskName = v →
        (runNameEvents today st es).taskName = v := by
      intro es
      induction es with
      | nil => intro _ st hst; exact hst
      | cons e es2 ih =>
        intro hes st hst
        have hne : st.taskName ≠ ("") := by
          rw [hst]; exact hv
        have ha : (applyNameEvent st e).taskName = st.taskName := by
          cases e with
          | userSetName w =>
              have := hes (NameEvent.userSetName w) (List.mem_cons_self _ _)
              simp [isNameEdit] at this
          | selectAlgo aid => rfl
          | toggleAi =>
              unfold applyNameEvent
              cases st.selectedAlgoId <;> rfl
          | setAiResult r => rfl
        have h1 : (nameStep today st e).taskName = st.taskName := by
          unfold nameStep
          rw [autoNameEffect_of_ne today _ (by rw [ha]; exact hne)]
          exact ha
        have h2 : (runNameEvents today (nameStep today st e) es2).taskName = v := by
          exact ih (fun e2 he2 => hes e2 (List.mem_cons_of_mem e he2))
            (nameStep today st e) (h1.trans hst)
        exact h2
    exact hpres events hev _ hstart
  · intro s2 aid a h0 h1 h2 h3 h4
    unfold autoNameEffect
    rw [if_neg (by simp [h0])]
    simp only [h1, h2, h3]
    simp [h4]

/-- Witness for C9's amended theorem: after editing the name to a concrete
non-empty value, a subsequent algorithm selection leaves it unchanged. -/
theorem autofill_only_while_empty_witness :
    (runNameEvents ("1012")
        (nameStep ("1012") editedNameState (NameEvent.userSetName ("custom")))
        [NameEvent.selectAlgo ("fire")]).taskName = ("custom") :=
  (autofill_only_while_empty ("1012") editedNameState ("custom") (by decide)
    [NameEvent.selectAlgo ("fire")] (by decide)).1

end ArgusVision
